import Mathlib

/-!
Verification development for the Automancy homebrew-ability conversion pipeline.

The TypeScript sources are shallowly embedded: machine numbers become `Nat`/`Int`/`ℚ`,
JS objects become structures, fallible code returns `Except`, and the two ambient
impurities of the code base — the `Math.random`-backed Foundry id generator and the
wall-clock enhancement timestamp — are made explicit as parameters (`IdSupply`).
-/

namespace Automancy

/-- Ability classification (`AbilityType` enum in the source types module). -/
inductive AbilityType where
  | weaponAttack
  | spellAttack
  | saveAbility
  | healing
  | utility
  | passive
  | reaction
deriving DecidableEq, Repr

/-- `AutomationComplexity.SIMPLE = 1` in the source enum. -/
def SIMPLE : Nat := 1
/-- `AutomationComplexity.MODERATE = 2` in the source enum. -/
def MODERATE : Nat := 2
/-- `AutomationComplexity.COMPLEX = 3` in the source enum. -/
def COMPLEX : Nat := 3
/-- `AutomationComplexity.REACTION = 4` in the source enum. -/
def REACTION : Nat := 4

/-- Activation type (`ActivationData.type` union in the source). -/
inductive ActivationType where
  | action
  | bonus
  | reaction
  | legendary
  | lair
  | special
deriving DecidableEq, Repr

/-- `ActivationData` from the source types module. -/
structure ActivationData where
  type : ActivationType
  cost : Nat
deriving DecidableEq, Repr

/-- `TargetData` from the source types module. -/
structure TargetData where
  value : Option Int
  type : String
  width : Option Int := none
  units : String := "any"
deriving DecidableEq, Repr

/-- `RangeData` from the source types module. -/
structure RangeData where
  value : Option Int
  long : Option Int := none
  units : String
deriving DecidableEq, Repr

/-- `DamageData` from the source types module. -/
structure DamageData where
  formula : String
  type : String
  conditional : Bool := false
deriving DecidableEq, Repr

/-- `SaveData` from the source types module (`dc : number | null` is always a number
on every path the parser produces, so it is embedded as `Int`). -/
structure SaveData where
  ability : String
  dc : Int
  scaling : String
deriving DecidableEq, Repr

/-- `EffectData` from the source types module. -/
structure EffectData where
  name : Option String := none
  type : String
  value : Option Int := none
  ability : Option String := none
  damageTypes : Option (List String) := none
  amount : Option Int := none
  condition : Option String := none
deriving DecidableEq, Repr

/-- A JS dynamic condition value: the parser stores `true` for named conditions and
the advantage/disadvantage target string for advantage entries. -/
inductive CondValue where
  | bool (b : Bool)
  | str (s : String)
deriving DecidableEq, Repr

/-- `ConditionData` from the source types module; optional fields that the parser
leaves `undefined` are embedded as `Option`. -/
structure ConditionData where
  type : String
  name : String
  value : CondValue
  condition : Option String := none
  saveEnds : Option Bool := none
  saveEndsTiming : Option String := none
deriving DecidableEq, Repr

/-- `ResourceData` from the source types module. -/
structure ResourceData where
  consumesResource : Bool
  type : Option String := none
  amount : Option Nat := none
  recharge : Option String := none
deriving DecidableEq, Repr

/-- `DurationData` from the source types module. -/
structure DurationData where
  value : Option Int
  units : String
  concentration : Option Bool := none
deriving DecidableEq, Repr

/-- `ParsedAbility`, the semantic model produced by `TextAnalyzer.analyzeText`.
The `requirements: any[]` placeholder (always `[]` at this level) is carried by the
Phase-2 `EnhancedAbilityData` instead. Complexity tiers are the source enum values
1–4 embedded as `Nat`. -/
structure ParsedAbility where
  name : String
  raw : String
  type : AbilityType
  attackType : Option String := none
  attackBonus : Option Int := none
  activation : ActivationData
  target : TargetData
  damage : List DamageData
  saves : List SaveData
  effects : List EffectData
  conditions : List ConditionData
  resources : ResourceData
  duration : DurationData
  range : RangeData
  complexity : Nat
deriving DecidableEq, Repr

/-- `TextAnalyzer.assessComplexity` (src/src/parser/text-analyzer.ts lines 476–498). -/
def assessComplexity (ability : ParsedAbility) : Nat :=
  let score := 1
  let score := if ability.conditions.length > 0 then score + 1 else score
  let score := if ability.damage.length > 1 then score + 1 else score
  let score := if ability.activation.type = ActivationType.reaction then 4 else score
  let score := if ability.effects.length > 1 then score + 1 else score
  let score := if ability.saves.length > 0 ∧ ability.effects.length > 0 then score + 1 else score
  let score := if ability.resources.consumesResource then score + 1 else score
  min score 4

/-- The baseline-complexity computation exactly as the specification states it
(claim C5): start at 1; +1 if any condition; +1 if more than one damage entry;
force to 4 on reaction activation; +1 if more than one effect; +1 if both a save
and an effect are present; +1 if a resource is consumed; clamp to 4. -/
def specBaselineComplexity (ability : ParsedAbility) : Nat :=
  let afterConditions := 1 + (if ability.conditions ≠ [] then 1 else 0)
  let afterDamage := afterConditions + (if 1 < ability.damage.length then 1 else 0)
  let afterReaction :=
    if ability.activation.type = ActivationType.reaction then 4 else afterDamage
  let afterEffects := afterReaction + (if 1 < ability.effects.length then 1 else 0)
  let afterSaveEffect :=
    afterEffects + (if ability.saves ≠ [] ∧ ability.effects ≠ [] then 1 else 0)
  let afterResource :=
    afterSaveEffect + (if ability.resources.consumesResource then 1 else 0)
  min afterResource 4

/-! ## Phase 2: complex-ability analysis and complexity scoring -/

/-- `AbilityRequirement` produced by `ComplexAbilityParser.parseRequirements`. -/
structure AbilityRequirement where
  type : String
  condition : String
  description : String
  automationHook : String
  validationMacro : String
deriving DecidableEq, Repr

/-- One step of a `LinkedEffect` sequence. -/
structure LinkedStep where
  step : Nat
  action : String
  condition : Option String := none
  timing : String
  linkedTo : Option String := none
  endCondition : Option String := none
deriving DecidableEq, Repr

/-- `LinkedEffect` produced by `ComplexAbilityParser.parseLinkedEffects`. -/
structure LinkedEffect where
  trigger : String
  sequence : List LinkedStep
deriving DecidableEq, Repr

/-- `AutomationStrategy` produced by `ComplexAbilityParser.determineAutomationStrategy`. -/
structure AutomationStrategy where
  primary : String
  hooks : List String := []
  macros : List String := []
  effects : List String := []
deriving DecidableEq, Repr

/-- `EnhancedAbilityData`: the semantic model extended by the Phase-2 complex parser
(the `professionalFlags` payload is irrelevant to every modelled computation and is
omitted). -/
structure EnhancedAbilityData extends ParsedAbility where
  requirements : List AbilityRequirement
  linkedEffects : List LinkedEffect
  automation : AutomationStrategy
deriving DecidableEq, Repr

/-- `ComplexAbilityParser.assessEnhancedComplexity` (src/unnamed/part_002
lines 663–687). -/
def assessEnhancedComplexity (enhanced : EnhancedAbilityData) : Nat :=
  let complexity := enhanced.complexity
  let complexity :=
    if enhanced.requirements.length > 0 then max complexity MODERATE else complexity
  let complexity :=
    if enhanced.linkedEffects.length > 0 then max complexity COMPLEX else complexity
  let complexity :=
    if enhanced.type = AbilityType.reaction then max complexity REACTION else complexity
  let complexity :=
    if enhanced.automation.primary = "multi_step_workflow" then max complexity COMPLEX
    else complexity
  complexity

/-- `ComplexAbilityParser.parseComplexAbility`: extends the model and recomputes the
complexity tier. Its three text-scanning helpers (`parseRequirements`,
`parseLinkedEffects`, `determineAutomationStrategy`, regex scans over the raw text)
enter as parameters and are universally quantified in the theorems, which therefore
cover every output those scans can produce. -/
def parseComplexAbilityWith (ability : ParsedAbility) (reqs : List AbilityRequirement)
    (linked : List LinkedEffect) (strategy : AutomationStrategy) : EnhancedAbilityData :=
  let enhanced : EnhancedAbilityData :=
    { toParsedAbility := ability, requirements := reqs, linkedEffects := linked,
      automation := strategy }
  { enhanced with complexity := assessEnhancedComplexity enhanced }

/-- The boolean subsystem summary Phase2Converter builds from the eight enhancement
passes before re-scoring complexity. -/
structure SystemFlags where
  hasConditions : Bool
  hasMacros : Bool
  hasRecharge : Bool
  isReaction : Bool
  hasOngoing : Bool
deriving DecidableEq, Repr

/-- `Phase2Converter.calculateFinalComplexity` (src/src/phase2-converter.ts
lines 286–316). -/
def calculateFinalComplexity (analysis : EnhancedAbilityData)
    (systemFlags : SystemFlags) : Nat :=
  let complexity := analysis.complexity
  let complexity :=
    if systemFlags.hasConditions then max complexity MODERATE else complexity
  let complexity :=
    if systemFlags.hasMacros ∨ systemFlags.hasOngoing then max complexity COMPLEX
    else complexity
  let complexity :=
    if systemFlags.isReaction then max complexity REACTION else complexity
  let complexity :=
    if analysis.requirements.length > 0 ∨ analysis.linkedEffects.length > 0 then
      max complexity COMPLEX
    else complexity
  complexity

/-- `Phase2Converter.calculateAutomationCoverage` (src/src/phase2-converter.ts
lines 394–435); the JS floating-point ratio is embedded in `ℚ`, which is exact on
every value this function can produce (`n / n` or `1.0`). -/
def calculateAutomationCoverage (analysis : EnhancedAbilityData) : ℚ :=
  let totalFeatures : Nat := 0
  let automatedFeatures : Nat := 0
  let totalFeatures :=
    if analysis.damage.length > 0 then totalFeatures + analysis.damage.length
    else totalFeatures
  let automatedFeatures :=
    if analysis.damage.length > 0 then automatedFeatures + analysis.damage.length
    else automatedFeatures
  let totalFeatures :=
    if analysis.saves.length > 0 then totalFeatures + analysis.saves.length
    else totalFeatures
  let automatedFeatures :=
    if analysis.saves.length > 0 then automatedFeatures + analysis.saves.length
    else automatedFeatures
  let totalFeatures :=
    if analysis.effects.length > 0 then totalFeatures + analysis.effects.length
    else totalFeatures
  let automatedFeatures :=
    if analysis.effects.length > 0 then automatedFeatures + analysis.effects.length
    else automatedFeatures
  let totalFeatures :=
    if analysis.conditions.length > 0 then totalFeatures + analysis.conditions.length
    else totalFeatures
  let automatedFeatures :=
    if analysis.conditions.length > 0 then automatedFeatures + analysis.conditions.length
    else automatedFeatures
  let totalFeatures :=
    if analysis.requirements.length > 0 then totalFeatures + analysis.requirements.length
    else totalFeatures
  let automatedFeatures :=
    if analysis.requirements.length > 0 then
      automatedFeatures + analysis.requirements.length
    else automatedFeatures
  let totalFeatures :=
    if analysis.linkedEffects.length > 0 then totalFeatures + analysis.linkedEffects.length
    else totalFeatures
  let automatedFeatures :=
    if analysis.linkedEffects.length > 0 then
      automatedFeatures + analysis.linkedEffects.length
    else automatedFeatures
  if totalFeatures > 0 then (automatedFeatures : ℚ) / (totalFeatures : ℚ) else 1

/-- The metrics record passed to `Phase2Converter.assessProfessionalGrade`. -/
structure GradeMetrics where
  flagQuality : Nat
  macroQuality : Nat
  automationCoverage : ℚ
  errorHandling : Bool
  performanceOptimization : Bool
deriving DecidableEq, Repr

/-- `Phase2Converter.assessProfessionalGrade` (src/src/phase2-converter.ts
lines 359–392). -/
def assessProfessionalGrade (metrics : GradeMetrics) : Nat :=
  let grade := 0
  let grade :=
    if metrics.flagQuality ≥ 4 then grade + 3
    else if metrics.flagQuality ≥ 2 then grade + 2
    else if metrics.flagQuality ≥ 1 then grade + 1
    else grade
  let grade :=
    if metrics.macroQuality ≥ 3 then grade + 2
    else if metrics.macroQuality ≥ 1 then grade + 1
    else grade
  let grade :=
    if metrics.automationCoverage ≥ 9/10 then grade + 3
    else if metrics.automationCoverage ≥ 7/10 then grade + 2
    else if metrics.automationCoverage ≥ 1/2 then grade + 1
    else grade
  let grade := if metrics.errorHandling then grade + 1 else grade
  let grade := if metrics.performanceOptimization then grade + 1 else grade
  min grade 10

/-! ## String helpers shared by the embedded parser code

JS string primitives are embedded character-listwise so that every definition
evaluates inside the kernel. -/

/-- JS `str.replace(/\s+/g, '')`. -/
def stripWhitespace (s : String) : String :=
  String.mk (s.data.filter (fun c => !c.isWhitespace))

/-- JS `str.toLowerCase()` (the embedded code only lowercases ASCII). -/
def toLowerS (s : String) : String := String.mk (s.data.map Char.toLower)

/-- JS `str.toUpperCase()` (the embedded code only uppercases ASCII). -/
def toUpperS (s : String) : String := String.mk (s.data.map Char.toUpper)

/-- JS `parseInt` applied to a regex group made of decimal digits. -/
def parseIntDigits (s : String) : Int := (s.toNat?.getD 0 : Int)

/-- JS `a || d` on strings: `a` unless it is empty. -/
def jsOrStr (a d : String) : String := if a = "" then d else a

/-- JS `a || d` on an optional string field. -/
def jsOrOptStr (a : Option String) (d : String) : String :=
  match a with
  | some s => jsOrStr s d
  | none => d

/-- JS `a || d` on numbers: `a` unless it is 0 (or missing). -/
def jsOrNat (a : Nat) (d : Nat) : Nat := if a = 0 then d else a

/-- JS `a || d` on an optional number: `a` unless missing or 0. -/
def jsOrOptInt (a : Option Int) (d : Int) : Int :=
  match a with
  | some v => if v = 0 then d else v
  | none => d

/-- JS truthiness of an optional string (`undefined` and `""` are falsy). -/
def truthyOptStr (a : Option String) : Bool :=
  match a with
  | some s => s ≠ ""
  | none => false

/-! ## Fact extraction engine (`PatternMatcher.extractPatterns`)

The regex engine itself is not re-implemented: a pattern's successive raw matches on
a text enter through its `matchesIn` field, and a throwing extractor is embedded as
`Except.error`. The loop structure of `extractPatterns` — try/catch per match,
`break` for non-global regexes, insertion into the result map only when matches were
collected — is translated literally. -/

/-- A raw regex match (`match[0]` and `match.index`). -/
structure RMatch where
  matchText : String
  index : Nat
deriving DecidableEq, Repr

/-- The object pushed by `extractPatterns`: the extractor result spread together with
`matchText` and `index`. -/
structure ExtractedMatch (α : Type) where
  data : α
  matchText : String
  index : Nat
deriving DecidableEq, Repr

/-- A `ParsingPattern` from the source types module; `matchesIn` abstracts the
successive `regex.exec` results on a given text and `extractor` models a possibly
throwing extraction function. -/
structure ParsingPattern (α : Type) where
  name : String
  matchesIn : String → List RMatch
  extractor : RMatch → Except String α
  priority : Int
  global : Bool

/-- The `while ((match = regex.exec(text)) !== null)` loop body of
`extractPatterns`: a successful extraction is pushed, a throwing extractor is caught
(`console.warn`) and the match skipped, and a non-global regex breaks after its
first iteration. -/
def execLoop {α : Type} (p : ParsingPattern α) : List RMatch → List (ExtractedMatch α)
  | [] => []
  | m :: rest =>
    let tail := if p.global then execLoop p rest else []
    match p.extractor m with
    | Except.ok extracted => ⟨extracted, m.matchText, m.index⟩ :: tail
    | Except.error _ => tail

/-- `PatternMatcher.extractPatterns` (src/src/parser/pattern-matcher.ts
lines 278–314): patterns sorted by descending priority (JS `sort` is stable, as is
`mergeSort`), each run through `execLoop`, and entered into the result list exactly
when at least one match was extracted. -/
def extractPatterns {α : Type} (patterns : List (ParsingPattern α)) (text : String) :
    List (String × List (ExtractedMatch α)) :=
  let sortedPatterns := patterns.mergeSort (fun a b => b.priority ≤ a.priority)
  sortedPatterns.filterMap (fun p =>
    let collected := execLoop p (p.matchesIn text)
    if collected.length > 0 then some (p.name, collected) else none)

/-- The per-pattern result as the specification describes it: the pattern's own
matches (only the first one for a non-repeatable pattern), keeping exactly those on
which the extractor succeeds. -/
def patternSuccesses {α : Type} (p : ParsingPattern α) (text : String) :
    List (ExtractedMatch α) :=
  (if p.global then p.matchesIn text else (p.matchesIn text).take 1).filterMap
    (fun m =>
      match p.extractor m with
      | Except.ok d => some ⟨d, m.matchText, m.index⟩
      | Except.error _ => none)

/-! ## Damage extraction (claim C8) -/

/-- The raw regex groups of a `damage_with_average` match:
`(\d+) \((\d+d\d+(?:\s*[\+\-]\s*\d+)?)\) (\w+) damage`. -/
structure AvgDamageGroups where
  average : String
  formula : String
  dmgType : String
deriving DecidableEq, Repr

/-- The raw regex groups of a `damage_simple` match:
`(\d+d\d+(?:\s*[\+\-]\s*\d+)?)\s+(\w+)\s+damage`. -/
structure SimpleDamageGroups where
  formula : String
  dmgType : String
deriving DecidableEq, Repr

/-- What a damage extractor returns (`average` present only for the averaged form). -/
structure DamageExtract where
  average : Option Int := none
  formula : String
  dmgType : String
deriving DecidableEq, Repr

/-- The `damage_with_average` extractor from `PatternMatcher.initializePatterns`. -/
def damageWithAverageExtract (g : AvgDamageGroups) : DamageExtract :=
  { average := some (parseIntDigits g.average)
    formula := stripWhitespace g.formula
    dmgType := toLowerS g.dmgType }

/-- The `damage_simple` extractor from `PatternMatcher.initializePatterns`. -/
def damageSimpleExtract (g : SimpleDamageGroups) : DamageExtract :=
  { formula := stripWhitespace g.formula
    dmgType := toLowerS g.dmgType }

/-- `TextAnalyzer.extractDamage` (src/src/parser/text-analyzer.ts lines 238–265),
taking the two extracted pattern-entry lists (`patterns.get('damage_with_average')`
and `patterns.get('damage_simple')`, each defaulted to `[]`). -/
def extractDamage (damageWithAverage damageSimple : List DamageExtract) :
    List DamageData :=
  let damage := damageWithAverage.map (fun d =>
    ({ formula := d.formula, type := d.dmgType, conditional := false } : DamageData))
  damageSimple.foldl (fun damage d =>
    if damage.any (fun existing => existing.formula = d.formula) then damage
    else damage ++ [{ formula := d.formula, type := d.dmgType, conditional := false }])
    damage

/-- The damage list as claim C8 states it: the averaged-format entries first, then
each simple-format entry unless an entry with the same formula string is already
present, every retained entry carrying the whitespace-stripped formula and the
lower-cased type. -/
def claimDamageUnion (avgRaw : List AvgDamageGroups) (simpleRaw : List SimpleDamageGroups) :
    List DamageData :=
  let averaged := avgRaw.map (fun g =>
    ({ formula := stripWhitespace g.formula, type := toLowerS g.dmgType,
       conditional := false } : DamageData))
  simpleRaw.foldl (fun acc g =>
    let entry : DamageData :=
      { formula := stripWhitespace g.formula, type := toLowerS g.dmgType,
        conditional := false }
    if acc.any (fun existing => existing.formula = entry.formula) then acc
    else acc ++ [entry]) averaged

/-! ## Activation extraction (claim C9) -/

/-- The activation-relevant entries of the extracted-pattern map: the first
`activation_reaction`, `activation_bonus` and `activation_action` matches, if any.
The bonus entry also carries `match.index` (`bonus.index || 0`). -/
structure ActivationPatternSet where
  reaction : Option Nat
  bonus : Option (Nat × Nat)
  action : Option Nat
deriving DecidableEq, Repr

/-- `TextAnalyzer.extractActivation` (src/src/parser/text-analyzer.ts
lines 152–194): a bonus-action match is accepted only when it begins within the
first 50 characters, otherwise control falls through to the action pattern. -/
def extractActivation (p : ActivationPatternSet) : ActivationData :=
  match p.reaction with
  | some reactionCost => { type := ActivationType.reaction, cost := reactionCost }
  | none =>
    let actionResult : ActivationData :=
      match p.action with
      | some actionCost => { type := ActivationType.action, cost := actionCost }
      | none => { type := ActivationType.action, cost := 1 }
    match p.bonus with
    | some (bonusCost, matchIndex) =>
      if matchIndex < 50 then { type := ActivationType.bonus, cost := bonusCost }
      else actionResult
    | none => actionResult

/-- The activation resolution as claim C9 states it: a reaction match wins; next a
bonus-action match, but only when the match begins within the first 50 characters of
the text; next an action match; else the default of an action costing 1. -/
def claimActivationPriority (p : ActivationPatternSet) : ActivationData :=
  match p.reaction with
  | some reactionCost => { type := ActivationType.reaction, cost := reactionCost }
  | none =>
    match p.bonus with
    | some (bonusCost, matchIndex) =>
      if matchIndex < 50 then { type := ActivationType.bonus, cost := bonusCost }
      else
        match p.action with
        | some actionCost => { type := ActivationType.action, cost := actionCost }
        | none => { type := ActivationType.action, cost := 1 }
    | none =>
      match p.action with
      | some actionCost => { type := ActivationType.action, cost := actionCost }
      | none => { type := ActivationType.action, cost := 1 }

/-! ## Active-effect generation (`EffectGenerator`, src/unnamed/part_003)

`generateFoundryId()` draws 16 random characters from `Math.random()`; the stream of
ids a run produces is made explicit as an `IdSupply` parameter (the n-th call to the
generator returns `supply n`), threaded with an explicit call counter. -/

/-- The stream of ids produced by successive `generateFoundryId()` calls of one run. -/
abbrev IdSupply := Nat → String

/-- JS `"a b".split(sep)` keeping empty segments. -/
def splitChar (sep : Char) (s : String) : List String :=
  (s.data.foldr (fun c acc =>
    match acc with
    | [] => [[c]]
    | g :: rest => if c = sep then [] :: (g :: rest) else (c :: g) :: rest)
    [[]]).map String.mk

/-- `ChangeData` from the source types module. -/
structure ChangeData where
  key : String
  mode : Nat
  value : String
  priority : Nat
deriving DecidableEq, Repr

/-- The duration sub-object of an active effect (only the fields the generator
sets). -/
structure EffectDuration where
  seconds : Option Int := none
  rounds : Option Int := none
  turns : Option Int := none
deriving DecidableEq, Repr

/-- The `flags.dae` sub-object of a generated effect. -/
structure DaeFlags where
  stackable : Option String := none
  specialDuration : Option (List String) := none
  macroRepeat : Option String := none
  transfer : Option Bool := none
deriving DecidableEq, Repr

/-- The `flags["chris-premades"]` sub-object set for MCDM conditions. -/
structure ChrisPremadesFlags where
  condition : Bool
  conditionType : String
  customCondition : Bool
deriving DecidableEq, Repr

/-- The `flags["convenient-effects"]` sub-object set for MCDM conditions. -/
structure ConvenientEffectsFlags where
  isCustom : Bool
  description : String
deriving DecidableEq, Repr

/-- The `flags.automancy` sub-object (its two source shapes merged, unset fields
`none`). -/
structure AutomancyEffectFlags where
  effectType : Option String := none
  generated : Bool
  mcdmCondition : Option Bool := none
  conditionType : Option String := none
  saveEnds : Option Bool := none
  saveEndsTiming : Option String := none
  saveDC : Option Int := none
  saveType : Option String := none
  description : Option String := none
deriving DecidableEq, Repr

/-- The flag object attached to a generated active effect. -/
structure EffectFlags where
  dae : DaeFlags := {}
  chrisPremades : Option ChrisPremadesFlags := none
  convenientEffects : Option ConvenientEffectsFlags := none
  automancy : Option AutomancyEffectFlags := none
deriving DecidableEq, Repr

/-- `ActiveEffectData` from the source types module. -/
structure ActiveEffectData where
  _id : String
  name : String
  img : String
  changes : List ChangeData
  duration : EffectDuration
  flags : EffectFlags
  statuses : List String
  transfer : Bool
  disabled : Bool
deriving DecidableEq, Repr

/-- `EffectGenerator.mapConditionToStatus`. -/
def mapConditionToStatus (conditionName : String) : Option String :=
  match toLowerS conditionName with
  | "blinded" => some "blinded"
  | "charmed" => some "charmed"
  | "deafened" => some "deafened"
  | "frightened" => some "frightened"
  | "grappled" => some "grappled"
  | "incapacitated" => some "incapacitated"
  | "invisible" => some "invisible"
  | "paralyzed" => some "paralyzed"
  | "petrified" => some "petrified"
  | "poisoned" => some "poisoned"
  | "prone" => some "prone"
  | "restrained" => some "restrained"
  | "stunned" => some "stunned"
  | "unconscious" => some "unconscious"
  | "exhaustion" => some "exhaustion"
  | "dazed" => some "dazed"
  | "bleeding" => some "bleeding"
  | "weakened" => some "weakened"
  | "slowed" => some "slowed"
  | _ => none

/-- `EffectGenerator.getConditionChanges`. -/
def getConditionChanges (status : String) : List ChangeData :=
  match status with
  | "blinded" =>
    [⟨"flags.midi-qol.disadvantage.attack.all", 5, "1", 20⟩,
     ⟨"flags.midi-qol.grants.advantage.attack.all", 5, "1", 20⟩]
  | "prone" =>
    [⟨"flags.midi-qol.disadvantage.attack.all", 5, "1", 20⟩,
     ⟨"flags.midi-qol.grants.advantage.attack.mwak", 5, "1", 20⟩]
  | "restrained" =>
    [⟨"flags.midi-qol.disadvantage.attack.all", 5, "1", 20⟩,
     ⟨"flags.midi-qol.disadvantage.ability.save.dex", 5, "1", 20⟩,
     ⟨"flags.midi-qol.grants.advantage.attack.all", 5, "1", 20⟩]
  | "dazed" =>
    [⟨"flags.midi-qol.dazed", 5, "1", 20⟩,
     ⟨"macro.tokenMagic", 0, "blur", 20⟩]
  | _ => []

/-- `EffectGenerator.getConditionDescription`. -/
def getConditionDescription (conditionType : String) : String :=
  match conditionType with
  | "dazed" => "Can only take an action, bonus action, OR move - not all three."
  | "bleeding" => "Takes ongoing damage at the start of each turn."
  | "weakened" => "Deals half damage with attacks."
  | "slowed" => "Movement speed is halved."
  | _ => ""

/-- JS `word.charAt(0).toUpperCase() + word.slice(1).toLowerCase()`. -/
def capitalizeWord (w : String) : String :=
  match w.data with
  | [] => ""
  | c :: rest => String.mk (c.toUpper :: rest.map Char.toLower)

/-- `EffectGenerator.formatConditionName`. -/
def formatConditionName (name : String) : String :=
  String.intercalate " " ((splitChar ' ' name).map capitalizeWord)

/-- `EffectGenerator.convertDuration`. -/
def convertDuration (ability : ParsedAbility) : EffectDuration :=
  let duration := ability.duration
  if duration.units = "inst" then {}
  else
    match duration.value with
    | none => {}
    | some v =>
      match duration.units with
      | "round" => { rounds := some v }
      | "turn" => { turns := some v }
      | "minute" => { seconds := some (v * 60) }
      | "hour" => { seconds := some (v * 3600) }
      | "day" => { seconds := some (v * 86400) }
      | _ => {}

/-- `EffectGenerator.getEffectIcon`. -/
def getEffectIcon (effectType : String) : String :=
  match effectType with
  | "ac_bonus" => "systems/dnd5e/icons/spells/protect-blue-3.jpg"
  | "ability_modifier" => "systems/dnd5e/icons/spells/enchant-utility-4.jpg"
  | "damage_resistance" => "systems/dnd5e/icons/spells/protect-cyan-2.jpg"
  | "advantage" => "systems/dnd5e/icons/spells/enchant-blue-3.jpg"
  | "disadvantage" => "systems/dnd5e/icons/spells/debuff-red-2.jpg"
  | "condition" => "systems/dnd5e/icons/spells/debuff-red-1.jpg"
  | _ => "systems/dnd5e/icons/spells/enchant-utility-4.jpg"

/-- `EffectGenerator.getConditionIcon`. -/
def getConditionIcon (status : String) : String :=
  match status with
  | "blinded" => "systems/dnd5e/icons/conditions/blinded.svg"
  | "charmed" => "systems/dnd5e/icons/conditions/charmed.svg"
  | "deafened" => "systems/dnd5e/icons/conditions/deafened.svg"
  | "frightened" => "systems/dnd5e/icons/conditions/frightened.svg"
  | "grappled" => "systems/dnd5e/icons/conditions/grappled.svg"
  | "incapacitated" => "systems/dnd5e/icons/conditions/incapacitated.svg"
  | "invisible" => "systems/dnd5e/icons/conditions/invisible.svg"
  | "paralyzed" => "systems/dnd5e/icons/conditions/paralyzed.svg"
  | "petrified" => "systems/dnd5e/icons/conditions/petrified.svg"
  | "poisoned" => "systems/dnd5e/icons/conditions/poisoned.svg"
  | "prone" => "systems/dnd5e/icons/conditions/prone.svg"
  | "restrained" => "systems/dnd5e/icons/conditions/restrained.svg"
  | "stunned" => "systems/dnd5e/icons/conditions/stunned.svg"
  | "unconscious" => "systems/dnd5e/icons/conditions/unconscious.svg"
  | "dazed" => "icons/svg/daze.svg"
  | "bleeding" => "icons/svg/blood.svg"
  | "weakened" => "icons/svg/downgrade.svg"
  | "slowed" => "icons/svg/frozen.svg"
  | _ => "systems/dnd5e/icons/spells/debuff-red-1.jpg"

/-- `EffectGenerator.generateChanges`. -/
def generateChanges (effect : EffectData) : List ChangeData :=
  match effect.type with
  | "ac_bonus" =>
    match effect.value with
    | some v => [⟨"system.attributes.ac.bonus", 2, toString v, 20⟩]
    | none => []
  | "ability_modifier" =>
    match effect.ability, effect.value with
    | some ab, some v =>
      [⟨"system.abilities." ++ ab ++ ".value", 2, toString v, 20⟩]
    | _, _ => []
  | "damage_resistance" =>
    match effect.damageTypes with
    | some damageTypes =>
      damageTypes.map (fun damageType =>
        if effect.amount = some 0 then
          (⟨"system.traits.di.value", 0, damageType, 20⟩ : ChangeData)
        else ⟨"system.traits.dr.value", 0, damageType, 20⟩)
    | none => []
  | "advantage" => [⟨"ATL.light.color", 5, "#00ff00", 20⟩]
  | "disadvantage" => [⟨"ATL.light.color", 5, "#ff0000", 20⟩]
  | _ => []

/-- `EffectGenerator.generateEffectFlags`. -/
def generateEffectFlags (effect : EffectData) (ability : ParsedAbility) : EffectFlags :=
  { dae :=
      { stackable :=
          some (if effect.type = "ac_bonus" ∨ effect.type = "ability_modifier" then
            "multi" else "noneName")
        transfer := if ability.type = AbilityType.passive then some true else none
        specialDuration :=
          if ability.duration.concentration = some true then some ["isConcentration"]
          else none }
    automancy := some { effectType := some effect.type, generated := true } }

/-- `EffectGenerator.mapStatusEffects`. -/
def mapStatusEffects (effect : EffectData) : List String :=
  match effect.type with
  | "condition" => (mapConditionToStatus (effect.condition.getD "")).toList
  | _ => []

/-- `EffectGenerator.createActiveEffect`, with the id draw made explicit: returns the
effect (or `null` when there are no changes) together with the advanced id counter. -/
def createActiveEffect (effect : EffectData) (ability : ParsedAbility)
    (supply : IdSupply) (k : Nat) : Option ActiveEffectData × Nat :=
  let changes := generateChanges effect
  if changes.isEmpty then (none, k)
  else
    (some { _id := supply k
            name := jsOrOptStr effect.name (ability.name ++ " Effect")
            img := getEffectIcon effect.type
            changes := changes
            duration := convertDuration ability
            flags := generateEffectFlags effect ability
            statuses := mapStatusEffects effect
            transfer := ability.type = AbilityType.passive
            disabled := false },
     k + 1)

/-- `EffectGenerator.createConditionEffect`. -/
def createConditionEffect (ability : ParsedAbility) (effectId : String)
    (conditionIndex : Nat) : Option ActiveEffectData :=
  match ability.conditions[conditionIndex]? with
  | none => none
  | some condition =>
    if condition.type = "advantage" ∨ condition.type = "disadvantage" then none
    else
      let status := mapConditionToStatus condition.type
      let statusEffects := status.toList
      let changes :=
        match status with
        | some s => getConditionChanges s
        | none => []
      if statusEffects.isEmpty ∧ changes.isEmpty then none
      else
        let saveEndsB := condition.saveEnds = some true
        let baseFlags : EffectFlags :=
          { dae :=
              { stackable := some "noneName"
                specialDuration :=
                  some (if saveEndsB ∧ condition.saveEndsTiming = some "end_of_turn"
                    then ["turnEndSource"]
                    else if saveEndsB then ["turnStart"] else [])
                macroRepeat := some (if saveEndsB then "endEveryTurn" else "none") } }
        let isMcdm : Bool :=
          match status with
          | some s => s == "dazed" || s == "bleeding" || s == "weakened" || s == "slowed"
          | none => false
        let flags :=
          if isMcdm then
            let s := status.getD ""
            { baseFlags with
              chrisPremades :=
                some { condition := true, conditionType := s, customCondition := true }
              convenientEffects :=
                some { isCustom := true, description := getConditionDescription s }
              automancy :=
                some { generated := true
                       mcdmCondition := some true
                       conditionType := some s
                       saveEnds := condition.saveEnds
                       saveEndsTiming := condition.saveEndsTiming
                       saveDC := (ability.saves.head?).map (fun sv => sv.dc)
                       saveType := (ability.saves.head?).map (fun sv => sv.ability)
                       description := some (getConditionDescription s) } }
          else baseFlags
        let duration : EffectDuration :=
          if saveEndsB then { rounds := some 100, turns := some 0 }
          else convertDuration ability
        some { _id := effectId
               name := ability.name ++ " - " ++
                 formatConditionName (jsOrStr condition.name condition.type)
               img := getConditionIcon (statusEffects.headD "")
               changes := changes
               duration := duration
               flags := flags
               statuses := statusEffects
               transfer := false
               disabled := false }

/-- The fold over `ability.effects` inside `generateActiveEffects`. -/
def activeEffectsFromEffects (ability : ParsedAbility) (supply : IdSupply) :
    List EffectData → Nat → List ActiveEffectData × Nat
  | [], k => ([], k)
  | e :: rest, k =>
    let created := createActiveEffect e ability supply k
    match created.1 with
    | some activeEffect =>
      let tail := activeEffectsFromEffects ability supply rest created.2
      (activeEffect :: tail.1, tail.2)
    | none => activeEffectsFromEffects ability supply rest created.2

/-- The id choice
`effectIds && effectIds[idx] ? effectIds[idx] : generateFoundryId()` of
`generateActiveEffects`: the shared id when present and truthy, else a fresh draw. -/
def conditionEffectId (effectIds : List String) (supply : IdSupply) (idx k : Nat) :
    String × Nat :=
  match effectIds[idx]? with
  | some s => if s ≠ "" then (s, k) else (supply k, k + 1)
  | none => (supply k, k + 1)

/-- The indexed `forEach` over `ability.conditions` inside `generateActiveEffects`:
the shared id `effectIds[idx]` is used when present and truthy, otherwise a fresh id
is drawn. -/
def conditionEffectsFrom (ability : ParsedAbility) (effectIds : List String)
    (supply : IdSupply) :
    List ConditionData → Nat → Nat → List ActiveEffectData × Nat
  | [], _, k => ([], k)
  | _ :: rest, idx, k =>
    let idPair := conditionEffectId effectIds supply idx k
    match createConditionEffect ability idPair.1 idx with
    | some conditionEffect =>
      let tail := conditionEffectsFrom ability effectIds supply rest (idx + 1) idPair.2
      (conditionEffect :: tail.1, tail.2)
    | none => conditionEffectsFrom ability effectIds supply rest (idx + 1) idPair.2

/-- The per-effect body of the transfer-flag post-pass for passive abilities. -/
def applyPassiveTransfer (e : ActiveEffectData) : ActiveEffectData :=
  { e with transfer := true,
           flags := { e.flags with dae := { e.flags.dae with transfer := some true } } }

/-- `EffectGenerator.generateActiveEffects` (src/unnamed/part_003 lines 24–55),
including the transfer-flag post-pass for passive abilities. -/
def generateActiveEffects (ability : ParsedAbility) (effectIds : List String)
    (supply : IdSupply) (k : Nat) : List ActiveEffectData × Nat :=
  let fromEffects := activeEffectsFromEffects ability supply ability.effects k
  let fromConditions :=
    conditionEffectsFrom ability effectIds supply ability.conditions 0 fromEffects.2
  let effects := fromEffects.1 ++ fromConditions.1
  let effects :=
    if ability.type = AbilityType.passive then effects.map applyPassiveTransfer
    else effects
  (effects, fromConditions.2)

/-! ## Base synthesis engine (`RuleEngine`, src/unnamed/part_005)

The D&D5e 4.x activity objects are embedded with every input-dependent field; the
constant MidiQOL boilerplate blocks (`generateMidiActivityProperties` and the other
fields that are literal constants in the source) are input-independent and carry no
information for any claim, so they are not repeated here. -/

/-- An entry of an attack activity's `effects` array (`{ _id, level: {} }`). -/
structure EffectRef where
  _id : String
deriving DecidableEq, Repr

/-- An entry of a save activity's `effects` array
(`{ _id, onSave, level: { min: null, max: null } }`). -/
structure SaveEffectRef where
  _id : String
  onSave : Bool
deriving DecidableEq, Repr

/-- The `activation` block of a generated activity. -/
structure ActivityActivation where
  type : ActivationType
  value : Nat
deriving DecidableEq, Repr

/-- One entry of an activity's `damage.parts` array. -/
structure DamagePart where
  number : Option Int
  denomination : Option Int
  bonus : String
  types : List String
  customEnabled : Bool
  customFormula : String
deriving DecidableEq, Repr

/-- The `target.affects` block of a generated activity. -/
structure ActivityTarget where
  count : String
  type : String
deriving DecidableEq, Repr

/-- The attack activity (`dnd5eactivity000`) generated by
`RuleEngine.generateAttackActivity`. -/
structure AttackActivity where
  _id : String
  type : String
  activation : ActivityActivation
  durationConcentration : Bool
  durationUnits : String
  effects : List EffectRef
  rangeUnits : String
  target : ActivityTarget
  attackBonus : String
  attackFlat : Bool
  attackTypeValue : String
  attackClassification : String
  damageIncludeBase : Bool
  damageParts : List DamagePart
deriving DecidableEq, Repr

/-- The save activity (`dnd5eactivity100`) generated by
`RuleEngine.generateSaveActivity`. -/
structure SaveActivity where
  _id : String
  type : String
  activation : ActivityActivation
  durationConcentration : Bool
  durationUnits : String
  effects : List SaveEffectRef
  rangeUnits : String
  target : ActivityTarget
  damageOnSave : String
  damageParts : List DamagePart
  damageCriticalAllowed : Bool
  saveAbility : List String
  saveDcFormula : String
deriving DecidableEq, Repr

/-- The activities record keyed `dnd5eactivity000` / `dnd5eactivity100`. -/
structure Activities where
  attack : Option AttackActivity
  save : Option SaveActivity
deriving DecidableEq, Repr

/-- The match attempt of `/(\d+)d(\d+)(?:\s*\+\s*(\d+))?/` anchored at the head of
the character list: greedy digit runs, the literal `d`, and the optional
whitespace-padded `+bonus` group. -/
def matchDiceAt (l : List Char) : Option (String × String × Option String) :=
  let digitsAndRest := l.span Char.isDigit
  if digitsAndRest.1.isEmpty then none
  else
    match digitsAndRest.2 with
    | 'd' :: afterD =>
      let denomAndRest := afterD.span Char.isDigit
      if denomAndRest.1.isEmpty then none
      else
        let afterWs := denomAndRest.2.dropWhile Char.isWhitespace
        let bonus :=
          match afterWs with
          | '+' :: afterPlus =>
            let bonusDigits := (afterPlus.dropWhile Char.isWhitespace).span Char.isDigit
            if bonusDigits.1.isEmpty then none else some (String.mk bonusDigits.1)
          | _ => none
        some (String.mk digitsAndRest.1, String.mk denomAndRest.1, bonus)
    | _ => none

/-- JS `formula.match(/(\d+)d(\d+)(?:\s*\+\s*(\d+))?/)`: the leftmost match wins. -/
def findDiceMatch : List Char → Option (String × String × Option String)
  | [] => none
  | c :: rest =>
    match matchDiceAt (c :: rest) with
    | some r => some r
    | none => findDiceMatch rest

/-- `RuleEngine.generateActivityDamageParts`. -/
def generateActivityDamageParts (ability : ParsedAbility) : List DamagePart :=
  ability.damage.map (fun dmg =>
    match findDiceMatch dmg.formula.data with
    | some (number, denomination, bonus) =>
      { number := some (parseIntDigits number)
        denomination := some (parseIntDigits denomination)
        bonus := bonus.getD ""
        types := [dmg.type]
        customEnabled := false
        customFormula := "" }
    | none =>
      { number := none
        denomination := none
        bonus := ""
        types := [dmg.type]
        customEnabled := true
        customFormula := dmg.formula })

/-- `RuleEngine.generateAttackActivity` (src/unnamed/part_005 lines 231–313). -/
def generateAttackActivity (ability : ParsedAbility) (effectIds : List String) :
    AttackActivity :=
  let isSpell := ability.type = AbilityType.spellAttack
  let isMelee := ability.attackType = some "msak" ∨ ability.attackType = some "mwak"
  { _id := "dnd5eactivity000"
    type := "attack"
    activation := { type := ability.activation.type
                    value := jsOrNat ability.activation.cost 1 }
    durationConcentration := ability.duration.concentration = some true
    durationUnits := jsOrStr ability.duration.units "inst"
    effects := effectIds.map (fun i => { _id := i })
    rangeUnits := if isMelee then "touch" else jsOrStr ability.range.units "ft"
    target := { count := toString (jsOrOptInt ability.target.value 1)
                type := jsOrStr ability.target.type "creature" }
    attackBonus :=
      match ability.attackBonus with
      | some b => if b = 0 then "" else toString b
      | none => ""
    attackFlat :=
      match ability.attackBonus with
      | some b => b ≠ 0
      | none => false
    attackTypeValue := if isMelee then "melee" else "ranged"
    attackClassification := if isSpell then "spell" else "weapon"
    damageIncludeBase := true
    damageParts := generateActivityDamageParts ability }

/-- `RuleEngine.generateSaveActivity` (src/unnamed/part_005 lines 315–406); the
first save (`ability.saves[0]`, only read on the branch where the list is
non-empty) enters as the `save` argument. -/
def generateSaveActivity (ability : ParsedAbility) (save : SaveData)
    (isConditionOnly : Bool) (effectIds : List String) : SaveActivity :=
  let isMelee := ability.attackType = some "msak" ∨ ability.attackType = some "mwak"
  { _id := "dnd5eactivity100"
    type := "save"
    activation := { type := ability.activation.type
                    value := jsOrNat ability.activation.cost 1 }
    durationConcentration := ability.duration.concentration = some true
    durationUnits := jsOrStr ability.duration.units "inst"
    effects := effectIds.map (fun i => { _id := i, onSave := false })
    rangeUnits := if isMelee then "touch" else jsOrStr ability.range.units "ft"
    target := { count := toString (jsOrOptInt ability.target.value 1)
                type := jsOrStr ability.target.type "creature" }
    damageOnSave := if isConditionOnly then "none" else "half"
    damageParts :=
      if isConditionOnly then
        [{ number := none
           denomination := none
           bonus := ""
           types :=
             match ability.damage with
             | [] => []
             | d :: _ => [d.type]
           customEnabled := false
           customFormula := "" }]
      else generateActivityDamageParts ability
    damageCriticalAllowed := false
    saveAbility := [save.ability]
    saveDcFormula := toString save.dc }

/-- `RuleEngine.generateActivities` (src/unnamed/part_005 lines 209–228): the save
activity is condition-only exactly when an attack coexists with a condition. -/
def generateActivities (ability : ParsedAbility) (effectIds : List String) :
    Activities :=
  let hasAttack :=
    ability.type = AbilityType.spellAttack ∨ ability.type = AbilityType.weaponAttack
  let hasCondition := ability.conditions.length > 0
  { attack := if hasAttack then some (generateAttackActivity ability effectIds) else none
    save :=
      match ability.saves with
      | [] => none
      | save :: _ =>
        some (generateSaveActivity ability save
          (decide hasAttack && decide hasCondition) effectIds) }

/-- `RuleEngine.determineItemType`. -/
def determineItemType (abilityType : AbilityType) : String :=
  match abilityType with
  | AbilityType.weaponAttack => "weapon"
  | _ => "feat"

/-- `RuleEngine.getIconPath`. -/
def getIconPath (abilityType : AbilityType) : String :=
  match abilityType with
  | AbilityType.weaponAttack => "icons/svg/sword.svg"
  | AbilityType.spellAttack => "icons/svg/lightning.svg"
  | AbilityType.saveAbility => "icons/svg/shield.svg"
  | AbilityType.healing => "icons/svg/heal.svg"
  | AbilityType.utility => "icons/svg/cog.svg"
  | AbilityType.passive => "icons/svg/eye.svg"
  | AbilityType.reaction => "icons/svg/clockwork.svg"

/-- `RuleEngine.generateDescription` (src/unnamed/part_005 lines 162–200). -/
def generateDescription (ability : ParsedAbility) : String :=
  let attackParts : List String :=
    match ability.attackType with
    | some attackType =>
      let attackTypeLabel :=
        if attackType = "msak" then "Melee Spell Attack"
        else if attackType = "rsak" then "Ranged Spell Attack"
        else if attackType = "mwak" then "Melee Weapon Attack"
        else if attackType = "rwak" then "Ranged Weapon Attack"
        else "Attack"
      let attackBonus :=
        match ability.attackBonus with
        | some b => if b = 0 then "+X" else "+" ++ toString b
        | none => "+X"
      let range :=
        match ability.range.value with
        | some v => if v = 0 then "reach 5 ft." else "reach " ++ toString v ++ " ft."
        | none => "reach 5 ft."
      ["<p><strong>" ++ attackTypeLabel ++ ":</strong> " ++ attackBonus ++
        " to hit, " ++ range ++ ", one " ++ jsOrStr ability.target.type "creature" ++
        ".</p>"]
    | none => []
  let damageParts : List String :=
    if ability.damage.length > 0 then
      ["<p><strong>Hit:</strong> " ++
        String.intercalate " plus "
          (ability.damage.map (fun d => d.formula ++ " " ++ d.type ++ " damage")) ++
        ".</p>"]
    else []
  let saveParts : List String :=
    match ability.saves, ability.conditions with
    | save :: _, cond :: _ =>
      ["<p>The target must succeed on a DC " ++ toString save.dc ++ " " ++
        toUpperS save.ability ++ " saving throw or be <strong>" ++ cond.name ++
        "</strong>" ++
        (if cond.saveEnds = some true then " (save ends at end of turn)" else "") ++
        ".</p>"]
    | save :: _, [] =>
      ["<p>DC " ++ toString save.dc ++ " " ++ toUpperS save.ability ++
        " saving throw.</p>"]
    | [], _ => []
  let conditionParts : List String :=
    ability.conditions.filterMap (fun cond =>
      if cond.name = "dazed" then
        some ("<p><strong>Dazed:</strong> A dazed creature can only take an action, " ++
          "a bonus action, OR move on their turn - not all three.</p>")
      else none)
  let parts := attackParts ++ damageParts ++ saveParts ++ conditionParts
  if parts.length > 0 then String.intercalate "\n" parts
  else "<p>" ++ ability.name ++ "</p>"

/-- The system block of a generated item (input-dependent fields of
`RuleEngine.generateSystemData`; the remaining fields are literal constants, plus
the weapon-specific constant block recorded by `weaponVariant`). -/
structure SystemData where
  descriptionValue : String
  activities : Activities
  weaponVariant : Bool
deriving DecidableEq, Repr

/-- A value stored in a MidiQOL flag bundle. -/
inductive FlagValue where
  | b (v : Bool)
  | s (v : String)
  | n (v : Int)
  | q (v : ℚ)
deriving DecidableEq, Repr

/-- A JS flag object: insertion-ordered keyed values. -/
abbrev FlagMap := List (String × FlagValue)

/-- JS `obj[key] = value`: overwrite in place or append. -/
def setFlag (m : FlagMap) (key : String) (value : FlagValue) : FlagMap :=
  if m.any (fun p => p.1 = key) then
    m.map (fun p => if p.1 = key then (key, value) else p)
  else m ++ [(key, value)]

/-- The item-level flag bundle: `{}` or `{ "midi-qol": ... }`. -/
structure MidiFlags where
  midiQol : Option FlagMap := none
deriving DecidableEq, Repr

/-- `FoundryItemData` from the source types module (`folder: null`,
`ownership: { default: 0 }` constants omitted). -/
structure FoundryItemData where
  _id : String
  name : String
  type : String
  img : String
  system : SystemData
  effects : List ActiveEffectData
  flags : MidiFlags
  sort : Nat
deriving DecidableEq, Repr

/-- `RuleEngine.generateSystemData` restricted to its input-dependent content. -/
def generateSystemData (ability : ParsedAbility) (itemType : String)
    (effectIds : List String) : SystemData :=
  { descriptionValue := generateDescription ability
    activities := generateActivities ability effectIds
    weaponVariant := itemType = "weapon" }

/-- `RuleEngine.generateItemData`, with the id draw explicit. -/
def generateItemData (ability : ParsedAbility) (effectIds : List String)
    (supply : IdSupply) (k : Nat) : FoundryItemData × Nat :=
  let itemType := determineItemType ability.type
  ({ _id := supply k
     name := ability.name
     type := itemType
     img := getIconPath ability.type
     system := generateSystemData ability itemType effectIds
     effects := []
     flags := {}
     sort := 0 },
   k + 1)

/-! ## MidiQOL flag generation (`FlagGenerator`, src/unnamed/part_001) -/

/-- `FlagGenerator.getAbilityCode`. -/
def getAbilityCode (abilityName : String) : Option String :=
  match toLowerS abilityName with
  | "strength" => some "str"
  | "str" => some "str"
  | "dexterity" => some "dex"
  | "dex" => some "dex"
  | "constitution" => some "con"
  | "con" => some "con"
  | "intelligence" => some "int"
  | "int" => some "int"
  | "wisdom" => some "wis"
  | "wis" => some "wis"
  | "charisma" => some "cha"
  | "cha" => some "cha"
  | _ => none

/-- `FlagGenerator.getSkillCode`. -/
def getSkillCode (skillName : String) : Option String :=
  match toLowerS skillName with
  | "acrobatics" => some "acr"
  | "animal handling" => some "ani"
  | "arcana" => some "arc"
  | "athletics" => some "ath"
  | "deception" => some "dec"
  | "history" => some "his"
  | "insight" => some "ins"
  | "intimidation" => some "inti"
  | "investigation" => some "inv"
  | "medicine" => some "med"
  | "nature" => some "nat"
  | "perception" => some "prc"
  | "performance" => some "per"
  | "persuasion" => some "pers"
  | "religion" => some "rel"
  | "sleight of hand" => some "slt"
  | "stealth" => some "ste"
  | "survival" => some "sur"
  | _ => none

/-- The advantage/disadvantage target string stored in `condition.value`. The parser
stores a string for every advantage/disadvantage entry; a boolean here would make
the JS code throw, so the bool case is mapped to an inert value. -/
def condValueAsStr (v : CondValue) : String :=
  match v with
  | CondValue.str s => s
  | CondValue.bool _ => ""

/-- The shared branch structure of `addAdvantageFlags` / `addDisadvantageFlags`;
`prefixKey` is `"advantage"` or `"disadvantage"`. -/
def addVantageFor (prefixKey : String) (flags : FlagMap) (target : String) : FlagMap :=
  if target = "all" ∨ target = "attack" then
    setFlag flags (prefixKey ++ ".attack.all") (FlagValue.b true)
  else if target = "saves" ∨ target = "save" then
    setFlag flags (prefixKey ++ ".ability.save.all") (FlagValue.b true)
  else if target = "checks" ∨ target = "check" then
    setFlag flags (prefixKey ++ ".ability.check.all") (FlagValue.b true)
  else
    match getAbilityCode target with
    | some abilityCode =>
      setFlag
        (setFlag flags (prefixKey ++ ".ability.check." ++ abilityCode) (FlagValue.b true))
        (prefixKey ++ ".ability.save." ++ abilityCode) (FlagValue.b true)
    | none =>
      match getSkillCode target with
      | some skillCode =>
        setFlag flags (prefixKey ++ ".skill." ++ skillCode) (FlagValue.b true)
      | none => flags

/-- `FlagGenerator.addAdvantageFlags`. -/
def addAdvantageFlags (flags : FlagMap) (ability : ParsedAbility) : FlagMap :=
  ability.conditions.foldl (fun flags condition =>
    if condition.type = "advantage" then
      addVantageFor "advantage" flags (condValueAsStr condition.value)
    else flags) flags

/-- `FlagGenerator.addDisadvantageFlags`. -/
def addDisadvantageFlags (flags : FlagMap) (ability : ParsedAbility) : FlagMap :=
  ability.conditions.foldl (fun flags condition =>
    if condition.type = "disadvantage" then
      addVantageFor "disadvantage" flags (condValueAsStr condition.value)
    else flags) flags

/-- `FlagGenerator.addDamageFlags` (`effect.amount ?? 0.5` embedded in `ℚ`). -/
def addDamageFlags (flags : FlagMap) (ability : ParsedAbility) : FlagMap :=
  ability.effects.foldl (fun flags effect =>
    if effect.type = "damage_resistance" ∧ effect.damageTypes.isSome then
      (effect.damageTypes.getD []).foldl (fun flags damageType =>
        let amount : ℚ :=
          match effect.amount with
          | some a => (a : ℚ)
          | none => 1/2
        if amount = 0 then setFlag flags ("DI." ++ damageType) (FlagValue.b true)
        else if amount < 1 then setFlag flags ("DR." ++ damageType) (FlagValue.q amount)
        else flags) flags
    else flags) flags

/-- `FlagGenerator.addSaveFlags` (`save.dc !== null` always holds in the embedded
`SaveData`). -/
def addSaveFlags (flags : FlagMap) (ability : ParsedAbility) : FlagMap :=
  if ability.type = AbilityType.saveAbility ∧ ability.saves.length > 0 then
    match ability.saves with
    | [] => flags
    | save :: _ =>
      let flags :=
        if save.scaling = "flat" then setFlag flags "saveDC" (FlagValue.n save.dc)
        else flags
      if save.scaling ≠ "flat" then
        setFlag flags ("save." ++ save.ability ++ ".scaling") (FlagValue.s save.scaling)
      else flags
  else flags

/-- `FlagGenerator.addMacroFlags`. -/
def addMacroFlags (flags : FlagMap) (ability : ParsedAbility) : FlagMap :=
  let flags :=
    if ability.effects.length > 0 ∨ ability.conditions.length > 0 then
      setFlag flags "effectActivation" (FlagValue.b true)
    else flags
  let hasAttack :=
    ability.type = AbilityType.spellAttack ∨ ability.type = AbilityType.weaponAttack
  let hasSave := ability.saves.length > 0
  let hasCondition := ability.conditions.length > 0
  if hasAttack ∧ hasSave then
    let flags := setFlag flags "forceWorkflow" (FlagValue.b true)
    if hasCondition ∧ ability.damage.length > 0 then
      let flags := setFlag flags "noDamSave" (FlagValue.b true)
      let flags := setFlag flags "saveDamage" (FlagValue.s "nodam")
      let flags := setFlag flags "otherSaveDamage" (FlagValue.s "nodam")
      setFlag flags "rollOtherDamage" (FlagValue.s "none")
    else flags
  else flags

/-- `FlagGenerator.addConditionalFlags`. -/
def addConditionalFlags (flags : FlagMap) (ability : ParsedAbility) : FlagMap :=
  let flags :=
    if ability.conditions.any (fun c => truthyOptStr c.condition) then
      let conditions :=
        (ability.conditions.filter (fun c => truthyOptStr c.condition)).map
          (fun c => c.condition.getD "")
      if conditions.length > 0 then
        setFlag flags "itemCondition" (FlagValue.s (String.intercalate " && " conditions))
      else flags
    else flags
  match ability.range.value with
  | some v => if v ≠ 0 ∧ v > 5 then setFlag flags "checkRange" (FlagValue.b true) else flags
  | none => flags

/-- `FlagGenerator.generateMidiQOLFlags` (src/unnamed/part_001 lines 12–27). -/
def generateMidiQOLFlags (ability : ParsedAbility) : MidiFlags :=
  let flags : FlagMap := []
  let flags := addAdvantageFlags flags ability
  let flags := addDisadvantageFlags flags ability
  let flags := addDamageFlags flags ability
  let flags := addSaveFlags flags ability
  let flags := addMacroFlags flags ability
  let flags := addConditionalFlags flags ability
  { midiQol := some flags }

/-! ## Macro generation (`RuleEngine.generateMacros`) -/

/-- `MacroData` from the source types module. -/
structure MacroData where
  name : String
  type : String
  scope : String
  command : String
  img : String
deriving DecidableEq, Repr

/-- A JSON string literal (the generated values contain no characters needing
escapes). -/
def jsonQuote (s : String) : String := "\"" ++ s ++ "\""

/-- `JSON.stringify` of a condition value. -/
def condValueJson (v : CondValue) : String :=
  match v with
  | CondValue.bool b => if b then "true" else "false"
  | CondValue.str s => jsonQuote s

/-- The key/value lines of one stringified condition object, in the insertion order
of `extractConditions`; fields left `undefined` by the parser are omitted, as
`JSON.stringify` does. -/
def conditionJsonFields (c : ConditionData) : List String :=
  [jsonQuote "type" ++ ": " ++ jsonQuote c.type,
   jsonQuote "name" ++ ": " ++ jsonQuote c.name,
   jsonQuote "value" ++ ": " ++ condValueJson c.value]
  ++ (match c.condition with
      | some s => [jsonQuote "condition" ++ ": " ++ jsonQuote s]
      | none => [])
  ++ (match c.saveEnds with
      | some b => [jsonQuote "saveEnds" ++ ": " ++ (if b then "true" else "false")]
      | none => [])
  ++ (match c.saveEndsTiming with
      | some t => [jsonQuote "saveEndsTiming" ++ ": " ++ jsonQuote t]
      | none => [])

/-- `JSON.stringify(ability.conditions, null, 2)`. -/
def jsonStringifyConditions (cs : List ConditionData) : String :=
  if cs.isEmpty then "[]"
  else
    "[\n" ++
    String.intercalate ",\n" (cs.map (fun c =>
      "  \x7b\n" ++
      String.intercalate ",\n" ((conditionJsonFields c).map (fun f => "    " ++ f)) ++
      "\n  \x7d")) ++
    "\n]"

/-- `RuleEngine.generateSaveWithEffectsMacro` (a constant template). -/
def generateSaveWithEffectsMacro : String :=
  "// Apply effects based on save results\n" ++
  "if (args[0].macroPass !== \"postSave\") return;\n\n" ++
  "for (let target of args[0].failedSaves) \x7b\n" ++
  "  // Apply failure effects to target\n" ++
  "  console.log(\"Applying effects to\", target.name);\n" ++
  "  // TODO: Apply specific effects based on ability\n" ++
  "\x7d\n\n"

/-- `RuleEngine.generateConditionalLogic`. -/
def generateConditionalLogic (ability : ParsedAbility) : String :=
  "// Handle conditional effects\n" ++
  "const conditions = " ++ jsonStringifyConditions ability.conditions ++ ";\n" ++
  "// TODO: Implement condition-specific logic\n\n"

/-- `RuleEngine.generateResourceConsumption`. -/
def generateResourceConsumption : String :=
  "// Handle resource consumption\n" ++
  "if (args[0].macroPass !== \"preItemRoll\") return;\n\n" ++
  "const actor = args[0].actor;\n" ++
  "// TODO: Check and consume resources\n\n"

/-- `RuleEngine.generateBasicMacro` (it never actually returns `null`). -/
def generateBasicMacro (ability : ParsedAbility) : MacroData :=
  let macroName := stripWhitespace ability.name
  let header :=
    "// Generated macro for " ++ ability.name ++ "\n" ++
    "// Complexity Level: " ++ toString ability.complexity ++ "\n\n" ++
    "const workflow = MidiQOL.Workflow.getWorkflow(args[0].uuid);\n" ++
    "if (!workflow) return;\n\n"
  let body :=
    if ability.type = AbilityType.saveAbility ∧ ability.effects.length > 0 then
      generateSaveWithEffectsMacro
    else if ability.conditions.length > 0 then
      generateConditionalLogic ability
    else if ability.resources.consumesResource then
      generateResourceConsumption
    else
      "console.log(\"" ++ ability.name ++ " macro executed\");\n"
  { name := macroName
    type := "script"
    scope := "global"
    command := header ++ body
    img := getIconPath ability.type }

/-- `RuleEngine.generateMacros`. -/
def generateMacros (ability : ParsedAbility) : List MacroData :=
  if ability.complexity ≥ MODERATE then [ generateBasicMacro ability] else []

/-! ## `RuleEngine.generateAutomation` -/

/-- `AutomationResult` from the source types module. -/
structure AutomationResult where
  item : FoundryItemData
  effects : List ActiveEffectData
  macros : List MacroData
  flags : MidiFlags
  complexity : Nat
deriving DecidableEq, Repr

/-- `RuleEngine.generateEffectIds`: one fresh id per condition, drawn first so the
ids can be shared between effects and activities. -/
def generateEffectIds (ability : ParsedAbility) (supply : IdSupply) : List String :=
  (List.range ability.conditions.length).map supply

/-- `RuleEngine.generateAutomation` (src/unnamed/part_005 lines 30–46), with the
run's random id stream explicit. -/
def generateAutomation (supply : IdSupply) (ability : ParsedAbility) :
    AutomationResult :=
  let effectIds := generateEffectIds ability supply
  let effectsPair :=
    generateActiveEffects ability effectIds supply ability.conditions.length
  let itemPair := generateItemData ability effectIds supply effectsPair.2
  { item := itemPair.1
    effects := effectsPair.1
    macros := generateMacros ability
    flags := generateMidiQOLFlags ability
    complexity := ability.complexity }

/-! ## Phase-2 orchestration (`Phase2Converter.convertAbility`) -/

/-- The record returned by `applyPhase2Enhancement` (the fields `convertAbility`
copies into the conversion result). -/
structure Phase2EnhancementResult where
  enhancedItem : FoundryItemData
  finalComplexity : Nat
  professionalGrade : Nat
  systemsApplied : List String
deriving DecidableEq, Repr

/-- The `phase2Enhancement` block of a conversion result. -/
structure Phase2Enhancement where
  applied : Bool
  reason : Option String := none
  complexity : Option Nat := none
  professionalGrade : Option Nat := none
  automationSystems : Option (List String) := none
deriving DecidableEq, Repr

/-- `EnhancedConversionResult` (the fields the orchestration writes). -/
structure EnhancedConversionResult where
  success : Bool
  error : Option String := none
  parsed : Option ParsedAbility := none
  automation : Option AutomationResult := none
  foundryItem : Option FoundryItemData := none
  phase2Enhancement : Phase2Enhancement
deriving DecidableEq, Repr

/-- The base artifact `convertAbility` assembles before enhancement:
`{ ...automation.item, effects: automation.effects, flags: automation.flags }`. -/
def baseFoundryItem (supply : IdSupply) (parsed : ParsedAbility) : FoundryItemData :=
  let automation := generateAutomation supply parsed
  { automation.item with effects := automation.effects, flags := automation.flags }

/-- `Phase2Converter.convertAbility` (src/src/phase2-converter.ts lines 40–126).
The text-analysis step (`TextAnalyzer.analyzeText`, whose exceptions the first
try/catch turns into a failure result) enters as the `analyze` parameter, and the
Phase-2 pipeline (`applyPhase2Enhancement`, whose eight subsystem passes may throw)
as the `enhance` parameter; a thrown JS exception is embedded as `Except.error`
carrying its message. -/
def convertAbility (supply : IdSupply)
    (analyze : String → Except String ParsedAbility)
    (enhance : ParsedAbility → FoundryItemData → Except String Phase2EnhancementResult)
    (abilityText : String) : EnhancedConversionResult :=
  match analyze abilityText with
  | Except.error msg =>
    { success := false
      error := some msg
      phase2Enhancement := { applied := false, reason := some "Base analysis failed" } }
  | Except.ok parsed =>
    let automation := generateAutomation supply parsed
    let foundryItem : FoundryItemData :=
      { automation.item with effects := automation.effects, flags := automation.flags }
    match enhance parsed foundryItem with
    | Except.ok enhancedResult =>
      { success := true
        parsed := some parsed
        automation := some automation
        foundryItem := some enhancedResult.enhancedItem
        phase2Enhancement :=
          { applied := true
            complexity := some enhancedResult.finalComplexity
            professionalGrade := some enhancedResult.professionalGrade
            automationSystems := some enhancedResult.systemsApplied } }
    | Except.error msg =>
      { success := true
        parsed := some parsed
        automation := some automation
        foundryItem := some foundryItem
        phase2Enhancement :=
          { applied := false, reason := some ("Enhancement failed: " ++ msg) } }

/-! ## Derived observations used by the theorems -/

/-- Every effect identifier referenced from the `effects` arrays of the generated
activities. -/
def activityEffectIdRefs (acts : Activities) : List String :=
  (match acts.attack with
   | some a => a.effects.map (fun r => r._id)
   | none => []) ++
  (match acts.save with
   | some s => s.effects.map (fun r => r._id)
   | none => [])

/-- The identifiers present in an automation result's top-level effect list. -/
def topLevelEffectIds (result : AutomationResult) : List String :=
  result.effects.map (fun e => e._id)

/-- Erase the generated identifier of one active effect. -/
def eraseEffectId (e : ActiveEffectData) : ActiveEffectData := { e with _id := "" }

/-- Erase the generated identifiers referenced inside the activities. -/
def eraseActivitiesIds (acts : Activities) : Activities :=
  { attack := acts.attack.map (fun a =>
      { a with effects := a.effects.map (fun r => { r with _id := "" }) })
    save := acts.save.map (fun s =>
      { s with effects := s.effects.map (fun r => { r with _id := "" }) }) }

/-- Erase every randomly generated identifier of an automation result: the item id,
the top-level effect ids, and the activity effect references. -/
def eraseResultIds (result : AutomationResult) : AutomationResult :=
  { result with
    item :=
      { result.item with
        _id := ""
        system :=
          { result.item.system with
            activities := eraseActivitiesIds result.item.system.activities } }
    effects := result.effects.map eraseEffectId }

/-! ## Concrete demonstration inputs -/

/-- One run's id stream for the demonstrations. -/
def demoSupply : IdSupply := fun n => "FXID" ++ toString n

/-- A second run's id stream (a different `Math.random` history). -/
def demoSupplyB : IdSupply := fun n => "GYID" ++ toString n

/-- A parsed weapon-attack ability whose condition list holds an advantage entry —
exactly what `analyzeText` produces for text such as
`"Feinting Strike: Melee Weapon Attack: +5 to hit, reach 5 ft., one target.
Hit: 8 (1d8 + 4) slashing damage. The target has advantage on attack rolls."`. -/
def advantageAbility : ParsedAbility :=
  { name := "Feinting Strike"
    raw := "Feinting Strike: Melee Weapon Attack: +5 to hit, reach 5 ft., one target. Hit: 8 (1d8 + 4) slashing damage. The target has advantage on attack rolls."
    type := AbilityType.weaponAttack
    attackType := some "mwak"
    attackBonus := some 5
    activation := { type := ActivationType.action, cost := 1 }
    target := { value := some 1, type := "creature" }
    damage := [{ formula := "1d8+4", type := "slashing" }]
    saves := []
    effects := []
    conditions := [{ type := "advantage", name := "Advantage", value := CondValue.str "all" }]
    resources := { consumesResource := false }
    duration := { value := none, units := "inst" }
    range := { value := some 5, units := "ft" }
    complexity := 2 }

/-- A parsed spell-attack ability with an attack, a save and a condition (the
Agonizing-Touch shape from the repository's validation material). -/
def attackSaveConditionAbility : ParsedAbility :=
  { name := "Agonizing Touch"
    raw := "Agonizing Touch: Melee Spell Attack: +7 to hit. Hit: 13 (3d8) necrotic damage and the target must succeed on a DC 15 Constitution saving throw or be dazed until the end of its next turn."
    type := AbilityType.spellAttack
    attackType := some "msak"
    attackBonus := some 7
    activation := { type := ActivationType.action, cost := 1 }
    target := { value := some 1, type := "creature" }
    damage := [{ formula := "3d8", type := "necrotic" }]
    saves := [{ ability := "con", dc := 15, scaling := "flat" }]
    effects := []
    conditions := [{ type := "dazed", name := "dazed", value := CondValue.bool true,
                     saveEnds := some true, saveEndsTiming := some "end_of_turn" }]
    resources := { consumesResource := false }
    duration := { value := none, units := "inst" }
    range := { value := none, units := "touch" }
    complexity := 3 }

/-- A parsed save-only ability: a save with damage and no attack, no condition. -/
def saveOnlyAbility : ParsedAbility :=
  { name := "Lightning Surge"
    raw := "Lightning Surge: each creature in a 60-foot line must make a DC 15 Dexterity saving throw, taking 28 (8d6) lightning damage on a failed save, or half as much damage on a successful one."
    type := AbilityType.saveAbility
    attackType := none
    attackBonus := none
    activation := { type := ActivationType.action, cost := 1 }
    target := { value := some 60, type := "space", width := some 60, units := "ft" }
    damage := [{ formula := "8d6", type := "lightning" }]
    saves := [{ ability := "dex", dc := 15, scaling := "flat" }]
    effects := []
    conditions := []
    resources := { consumesResource := false }
    duration := { value := none, units := "inst" }
    range := { value := some 60, units := "ft" }
    complexity := 2 }

/-! ## Theorems -/

/-- Claim C5. For every parsed ability, the baseline complexity tier computed by
`TextAnalyzer.assessComplexity` equals the specification's stated computation:
start at 1; +1 for a non-empty condition list; +1 for more than one damage entry;
force 4 on reaction activation; +1 for more than one effect; +1 when both a save
and an effect are present; +1 for resource consumption; clamp at 4. -/
theorem baseline_complexity_matches_spec (ability : ParsedAbility) :
    assessComplexity ability = specBaselineComplexity ability := by
  simp only [assessComplexity, specBaselineComplexity, gt_iff_lt, List.length_pos,
    ne_eq]
  split_ifs <;> rfl

/-- Claim C3. For every input ability and every combination of enhancement subsystems and
text-scan outputs, the final complexity tier reported by
`Phase2Converter.calculateFinalComplexity` after `ComplexAbilityParser`'s
re-scoring is at least the base complexity tier: every enhancement step only takes
maxima. -/
theorem final_complexity_ge_base (ability : ParsedAbility)
    (reqs : List AbilityRequirement) (linked : List LinkedEffect)
    (strategy : AutomationStrategy) (systemFlags : SystemFlags) :
    ability.complexity ≤
      calculateFinalComplexity (parseComplexAbilityWith ability reqs linked strategy)
        systemFlags := by
  have step : ∀ (P : Prop) [Decidable P] (k a b : Nat), a ≤ b →
      a ≤ if P then max b k else b := by
    intro P _ k a b h
    split
    · exact le_trans h (Nat.le_max_left b k)
    · exact h
  have hA : ∀ e : EnhancedAbilityData, e.complexity ≤ assessEnhancedComplexity e := by
    intro e
    simp only [assessEnhancedComplexity]
    exact step _ _ _ _ (step _ _ _ _ (step _ _ _ _ (step _ _ _ _ le_rfl)))
  have hB : ∀ (a : EnhancedAbilityData) (f : SystemFlags),
      a.complexity ≤ calculateFinalComplexity a f := by
    intro a f
    simp only [calculateFinalComplexity]
    exact step _ _ _ _ (step _ _ _ _ (step _ _ _ _ (step _ _ _ _ le_rfl)))
  exact le_trans
    (hA { toParsedAbility := ability, requirements := reqs, linkedEffects := linked,
          automation := strategy })
    (hB (parseComplexAbilityWith ability reqs linked strategy) systemFlags)

/-- Claim C9. For every combination of activation pattern matches,
`TextAnalyzer.extractActivation` resolves them in the claimed priority order:
reaction, then bonus-if-within-the-first-50-characters, then action, then the
default action of cost 1. -/
theorem activation_priority_resolution (p : ActivationPatternSet) :
    extractActivation p = claimActivationPriority p := by
  rcases p with ⟨r, b, a⟩
  rcases r with _ | rc <;> rcases b with _ | ⟨bc, bi⟩ <;> rcases a with _ | ac <;>
    simp only [extractActivation, claimActivationPriority]

/-- Claim C8. For every list of averaged-format and simple-format damage matches, the
extracted damage list is their union with averaged entries first, a simple entry
dropped when its formula is already present, and each retained entry carrying the
whitespace-stripped formula and lower-cased type. -/
theorem extract_damage_union_dedup (avgRaw : List AvgDamageGroups)
    (simpleRaw : List SimpleDamageGroups) :
    extractDamage (avgRaw.map damageWithAverageExtract)
      (simpleRaw.map damageSimpleExtract) = claimDamageUnion avgRaw simpleRaw := by
  simp only [extractDamage, claimDamageUnion, List.map_map, List.foldl_map,
    damageWithAverageExtract, damageSimpleExtract, Function.comp_def]

/-- Claim C10. For every enhanced analysis, `Phase2Converter.calculateAutomationCoverage`
is exactly 1 (every counted feature increments the automated and the total count
identically, and the no-feature case returns 1), so inside
`Phase2Converter.assessProfessionalGrade` the coverage component always contributes
its maximum 3 points. -/
theorem automation_coverage_always_full (analysis : EnhancedAbilityData)
    (flagQuality macroQuality : Nat) (errorHandling performanceOptimization : Bool) :
    calculateAutomationCoverage analysis = 1 ∧
    assessProfessionalGrade
      { flagQuality := flagQuality
        macroQuality := macroQuality
        automationCoverage := calculateAutomationCoverage analysis
        errorHandling := errorHandling
        performanceOptimization := performanceOptimization } =
      min ((if flagQuality ≥ 4 then 3
            else if flagQuality ≥ 2 then 2
            else if flagQuality ≥ 1 then 1
            else 0)
        + (if macroQuality ≥ 3 then 2 else if macroQuality ≥ 1 then 1 else 0)
        + 3
        + (if errorHandling then 1 else 0)
        + (if performanceOptimization then 1 else 0)) 10 := by
  have key : ∀ t : Nat, (if t > 0 then (t : ℚ) / (t : ℚ) else 1) = 1 := by
    intro t
    split
    · next ht => exact div_self (Nat.cast_ne_zero.mpr (Nat.pos_iff_ne_zero.mp ht))
    · rfl
  have hcov : calculateAutomationCoverage analysis = 1 := key _
  refine ⟨hcov, ?_⟩
  rw [hcov]
  simp only [assessProfessionalGrade]
  norm_num
  split_ifs <;> omega

/-- Claim C6. For every pattern registry and text, `extractPatterns` equals the
per-pattern collection of successful extractions: a match whose extractor throws is
skipped while extraction continues with the remaining matches and patterns, no
exception propagates to the caller (the result type carries no error), and each
pattern's entry depends only on its own matches and extractor, so other patterns'
results are unchanged by a failure. -/
theorem extract_patterns_skip_failing_matches {α : Type}
    (patterns : List (ParsingPattern α)) (text : String) :
    extractPatterns patterns text =
      (patterns.mergeSort (fun a b => b.priority ≤ a.priority)).filterMap
        (fun p =>
          if (patternSuccesses p text).length > 0 then
            some (p.name, patternSuccesses p text)
          else none) := by
  have h : ∀ (p : ParsingPattern α) (ms : List RMatch),
      execLoop p ms =
        (if p.global then ms else ms.take 1).filterMap (fun m =>
          match p.extractor m with
          | Except.ok d => some ⟨d, m.matchText, m.index⟩
          | Except.error _ => none) := by
    intro p ms
    induction ms with
    | nil => by_cases hg : p.global <;> simp [execLoop, hg]
    | cons m rest ih =>
      rcases he : p.extractor m with msg | d <;> by_cases hg : p.global <;>
        simp [execLoop, he, hg, ih, List.filterMap_cons]
  simp only [extractPatterns, patternSuccesses]
  congr 1
  funext p
  simp only [h]

/-- Claim C2. For every parsed ability, when it has an attack classification together with
at least one save and at least one condition, the generated save activity's
damage-on-save mode is `"none"` while the attack activity carries the ability's
damage parts; when it has a save but no attack-plus-condition combination, the save
activity's mode is `"half"` with the full damage parts. -/
theorem save_activity_damage_suppression (ability : ParsedAbility)
    (effectIds : List String) :
    ((ability.type = AbilityType.spellAttack ∨ ability.type = AbilityType.weaponAttack) →
      ability.saves ≠ [] → ability.conditions ≠ [] →
      ∃ atk sv,
        (generateActivities ability effectIds).attack = some atk ∧
        (generateActivities ability effectIds).save = some sv ∧
        sv.damageOnSave = "none" ∧
        atk.damageParts = generateActivityDamageParts ability) ∧
    (ability.saves ≠ [] →
      ¬((ability.type = AbilityType.spellAttack ∨
          ability.type = AbilityType.weaponAttack) ∧ ability.conditions ≠ []) →
      ∃ sv,
        (generateActivities ability effectIds).save = some sv ∧
        sv.damageOnSave = "half" ∧
        sv.damageParts = generateActivityDamageParts ability) := by
  constructor
  · intro hAtt hSaves hConds
    rcases hs : ability.saves with _ | ⟨save, rest⟩
    · exact absurd hs hSaves
    have hc : ability.conditions.length > 0 := List.length_pos.mpr hConds
    refine ⟨generateAttackActivity ability effectIds,
      generateSaveActivity ability save true effectIds, ?_, ?_, ?_, ?_⟩
    · simp [generateActivities, hAtt]
    · simp [generateActivities, hs, hAtt, hc]
    · simp [generateSaveActivity]
    · simp [generateAttackActivity]
  · intro hSaves hNand
    rcases hs : ability.saves with _ | ⟨save, rest⟩
    · exact absurd hs hSaves
    have hfalse :
        ((decide (ability.type = AbilityType.spellAttack) ||
            decide (ability.type = AbilityType.weaponAttack)) &&
          decide (0 < ability.conditions.length)) = false := by
      by_cases h1 : ability.type = AbilityType.spellAttack ∨
          ability.type = AbilityType.weaponAttack
      · have h2 : ability.conditions = [] :=
          not_not.mp (fun hcne => hNand ⟨h1, hcne⟩)
        simp [h2]
      · have h12 := not_or.mp h1
        simp [h12.1, h12.2]
    refine ⟨generateSaveActivity ability save false effectIds, ?_, ?_, ?_⟩
    · simp [generateActivities, hs, hfalse]
    · simp [generateSaveActivity]
    · simp [generateSaveActivity]

/-- Witness for C2: the attack+save+condition ability gets a suppressed save branch
while the attack carries the damage, and the save-only ability gets a half-damage
save carrying the full parts. -/
theorem save_activity_damage_suppression_witness :
    (∃ atk sv,
      (generateActivities attackSaveConditionAbility ["FXID0"]).attack = some atk ∧
      (generateActivities attackSaveConditionAbility ["FXID0"]).save = some sv ∧
      sv.damageOnSave = "none" ∧
      atk.damageParts = generateActivityDamageParts attackSaveConditionAbility) ∧
    (∃ sv,
      (generateActivities saveOnlyAbility []).save = some sv ∧
      sv.damageOnSave = "half" ∧
      sv.damageParts = generateActivityDamageParts saveOnlyAbility) :=
  ⟨(save_activity_damage_suppression attackSaveConditionAbility ["FXID0"]).1
      (Or.inl rfl) (by decide) (by decide),
   (save_activity_damage_suppression saveOnlyAbility []).2 (by decide) (by decide)⟩

/-- Claim C7. Whenever base analysis succeeds and the Phase-2 enhancement pipeline
throws, `convertAbility` returns the unmodified base artifact together with a
`phase2Enhancement` block whose `applied` flag is false and whose reason carries the
failure message, instead of propagating the exception. -/
theorem enhancement_failure_falls_back_to_base (supply : IdSupply)
    (analyze : String → Except String ParsedAbility)
    (enhance : ParsedAbility → FoundryItemData → Except String Phase2EnhancementResult)
    (abilityText : String) (parsed : ParsedAbility) (msg : String)
    (hA : analyze abilityText = Except.ok parsed)
    (hE : enhance parsed (baseFoundryItem supply parsed) = Except.error msg) :
    convertAbility supply analyze enhance abilityText =
      { success := true
        parsed := some parsed
        automation := some (generateAutomation supply parsed)
        foundryItem := some (baseFoundryItem supply parsed)
        phase2Enhancement :=
          { applied := false, reason := some ("Enhancement failed: " ++ msg) } } := by
  simp only [convertAbility, baseFoundryItem] at hE ⊢
  simp only [hA, hE]

/-- Witness enhancement pipeline that always throws. -/
def demoEnhanceFail :
    ParsedAbility → FoundryItemData → Except String Phase2EnhancementResult :=
  fun _ _ => Except.error "subsystem crash"

/-- Witness analyzer that succeeds with the concrete save-only ability. -/
def demoAnalyze : String → Except String ParsedAbility :=
  fun _ => Except.ok saveOnlyAbility

/-- Witness for C7: on a concrete run whose enhancement pipeline throws, the
orchestrator hands back the base artifact with `applied := false` and the failure
reason. -/
theorem enhancement_failure_falls_back_to_base_witness :
    convertAbility demoSupply demoAnalyze demoEnhanceFail "Lightning Surge text" =
      { success := true
        parsed := some saveOnlyAbility
        automation := some (generateAutomation demoSupply saveOnlyAbility)
        foundryItem := some (baseFoundryItem demoSupply saveOnlyAbility)
        phase2Enhancement :=
          { applied := false
            reason := some ("Enhancement failed: " ++ "subsystem crash") } } :=
  enhancement_failure_falls_back_to_base demoSupply demoAnalyze demoEnhanceFail
    "Lightning Surge text" saveOnlyAbility "subsystem crash" rfl rfl

/-- Claim C1. Evaluation at the failing input: for the weapon-attack ability with an
advantage condition, the generated attack activity references the pre-generated
condition id while the top-level effect list is empty — the identifier-correlation
invariant the specification states is violated, because `createConditionEffect`
skips advantage/disadvantage conditions yet the activities still reference their
pre-generated ids. -/
theorem advantage_condition_breaks_id_correlation :
    "FXID0" ∈ activityEffectIdRefs
        (generateAutomation demoSupply advantageAbility).item.system.activities ∧
    "FXID0" ∉ topLevelEffectIds (generateAutomation demoSupply advantageAbility) := by
  decide

/-- Claim C4 counterexample: the same in-memory ability converted in two runs (two
`Math.random` histories) yields different artifacts — the generated item id
differs — so the complete conversion is not a deterministic pure function of its
input alone. -/
theorem conversion_output_differs_between_runs :
    generateAutomation demoSupply advantageAbility ≠
      generateAutomation demoSupplyB advantageAbility := by
  decide

/-- `createConditionEffect` uses its id argument only as the stored `_id`: after
erasure the result is independent of the id. -/
theorem createConditionEffect_erase (ability : ParsedAbility) (id1 id2 : String)
    (idx : Nat) :
    (createConditionEffect ability id1 idx).map eraseEffectId =
      (createConditionEffect ability id2 idx).map eraseEffectId := by
  rcases hcg : ability.conditions[idx]? with _ | cond
  · simp [createConditionEffect, hcg]
  · simp only [createConditionEffect, hcg]
    split_ifs <;> simp [eraseEffectId]

/-- The effect-list fold consumes fresh ids only for the `_id` fields: after
erasure it is independent of the supply and of the counter. -/
theorem activeEffectsFromEffects_erase (ability : ParsedAbility) (s1 s2 : IdSupply) :
    ∀ (es : List EffectData) (k1 k2 : Nat),
      ((activeEffectsFromEffects ability s1 es k1).1).map eraseEffectId =
        ((activeEffectsFromEffects ability s2 es k2).1).map eraseEffectId := by
  intro es
  induction es with
  | nil => intro k1 k2; rfl
  | cons e rest ih =>
    intro k1 k2
    simp only [activeEffectsFromEffects, createActiveEffect]
    by_cases hEmpty : (generateChanges e).isEmpty
    · simpa [hEmpty] using ih k1 k2
    · simp [hEmpty, eraseEffectId, ih (k1 + 1) (k2 + 1)]

/-- The condition-effect fold likewise: after erasure it is independent of the id
list, the supply and the counter. -/
theorem conditionEffectsFrom_erase (ability : ParsedAbility) (s1 s2 : IdSupply)
    (ids1 ids2 : List String) :
    ∀ (conds : List ConditionData) (idx k1 k2 : Nat),
      ((conditionEffectsFrom ability ids1 s1 conds idx k1).1).map eraseEffectId =
        ((conditionEffectsFrom ability ids2 s2 conds idx k2).1).map eraseEffectId := by
  intro conds
  induction conds with
  | nil => intro idx k1 k2; rfl
  | cons c rest ih =>
    intro idx k1 k2
    simp only [conditionEffectsFrom]
    have herase := createConditionEffect_erase ability
      (conditionEffectId ids1 s1 idx k1).1 (conditionEffectId ids2 s2 idx k2).1 idx
    rcases h1 : createConditionEffect ability (conditionEffectId ids1 s1 idx k1).1 idx
      with _ | e1
    · rw [h1] at herase
      have h2 : createConditionEffect ability (conditionEffectId ids2 s2 idx k2).1 idx
          = none := Option.map_eq_none'.mp herase.symm
      simp only [h2]
      exact ih (idx + 1) _ _
    · rw [h1] at herase
      obtain ⟨e2, h2, he⟩ := Option.map_eq_some'.mp herase.symm
      simp only [h2, List.map_cons, he]
      exact congrArg (List.cons (eraseEffectId e1)) (ih (idx + 1) _ _)

/-- The erased activities depend only on the number of shared effect ids. -/
theorem generateActivities_erase (ability : ParsedAbility) (ids1 ids2 : List String)
    (h : ids1.length = ids2.length) :
    eraseActivitiesIds (generateActivities ability ids1) =
      eraseActivitiesIds (generateActivities ability ids2) := by
  have h1 : ∀ l : List String,
      (l.map (fun i => ({ _id := i } : EffectRef))).map
          (fun r => { r with _id := "" }) =
        List.replicate l.length ⟨""⟩ := by
    intro l
    induction l with
    | nil => rfl
    | cons a t iht => simp [List.replicate_succ, iht]
  have h2 : ∀ l : List String,
      (l.map (fun i => ({ _id := i, onSave := false } : SaveEffectRef))).map
          (fun r => { r with _id := "" }) =
        List.replicate l.length ⟨"", false⟩ := by
    intro l
    induction l with
    | nil => rfl
    | cons a t iht => simp [List.replicate_succ, iht]
  rcases hsv : ability.saves with _ | ⟨sv, rest⟩ <;>
    simp [generateActivities, eraseActivitiesIds, generateAttackActivity,
      generateSaveActivity, hsv, h1, h2, h]

/-- Claim C4 amended: with the generated identifiers erased (item id, effect ids,
activity effect references), two runs of the base synthesis on the same in-memory
input coincide — the artifact is a deterministic pure function of the input modulo
the freshly drawn random identifiers. -/
theorem conversion_deterministic_up_to_generated_ids (ability : ParsedAbility)
    (s1 s2 : IdSupply) :
    eraseResultIds (generateAutomation s1 ability) =
      eraseResultIds (generateAutomation s2 ability) := by
  have hlen : (generateEffectIds ability s1).length =
      (generateEffectIds ability s2).length := by
    simp [generateEffectIds]
  have hAct := generateActivities_erase ability
    (generateEffectIds ability s1) (generateEffectIds ability s2) hlen
  have hA := activeEffectsFromEffects_erase ability s1 s2 ability.effects
    ability.conditions.length ability.conditions.length
  have hB := conditionEffectsFrom_erase ability s1 s2
    (generateEffectIds ability s1) (generateEffectIds ability s2) ability.conditions 0
    (activeEffectsFromEffects ability s1 ability.effects ability.conditions.length).2
    (activeEffectsFromEffects ability s2 ability.effects ability.conditions.length).2
  have hcomm : eraseEffectId ∘ applyPassiveTransfer =
      applyPassiveTransfer ∘ eraseEffectId := rfl
  simp only [eraseResultIds, generateAutomation, generateItemData, generateSystemData,
    generateActiveEffects]
  simp only [AutomationResult.mk.injEq, FoundryItemData.mk.injEq, SystemData.mk.injEq]
  refine ⟨⟨trivial, trivial, trivial, trivial, ⟨trivial, hAct, trivial⟩, trivial,
    trivial, trivial⟩, ?_, trivial, trivial, trivial⟩
  by_cases hp : ability.type = AbilityType.passive
  · rw [if_pos hp, if_pos hp, List.map_map, List.map_map, hcomm, ← List.map_map,
      ← List.map_map, List.map_append, List.map_append, hA, hB]
    simp [List.map_append]
  · rw [if_neg hp, if_neg hp, List.map_append, List.map_append, hA, hB]

end Automancy
